import Mathlib

/-!
Verification of the acquisition-and-booking orchestration core of the
amazon_shifts_bot repository, as a shallow embedding in Lean 4.

The embedding follows the Python source:
  * `src/page_objects/shift_booking.py` — the booking ledger
    (`ShiftBookingState`), discovery and the `book_slot` workflow;
  * `src/services/bulletproof_booking.py` — the bulletproof booking service;
  * `src/bulletproof_monitor.py` — the cycle scheduler;
  * `src/utils/selenium_helpers.py` — `click_with_retry`.

Pure data manipulation is translated directly; interactions with the
browser driver are abstracted as environment records whose fields stand
for the outcomes of the driver calls made by the corresponding source
block, and file I/O is modelled by explicit disk contents / write
operations.  Python exceptions are modelled with `Except` where the
source lets them escape, and are absorbed where the source catches them.
-/

/-- Kinds of Python exceptions that play a role in the modelled code. -/
inductive PyErr where
  | ioError
  | jsonDecodeError
  | keyError
  | attributeError
  | typeError
  deriving DecidableEq

/-- JSON values, the possible results of `json.load` in `_load_state`. -/
inductive Json where
  | null
  | bool (b : Bool)
  | num (n : Int)
  | str (s : String)
  | arr (xs : List Json)
  | obj (kvs : List (String × Json))

/-- The booking ledger held by `ShiftBookingState`
(`src/page_objects/shift_booking.py`, lines 30-92): the set
`booked_today`, the counter `daily_count` and the day marker
`last_reset_date`.  Python's `set` of strings is a `Finset String`;
`daily_count` is an unbounded Python integer. -/
structure ShiftBookingState where
  booked_today : Finset String
  daily_count : Int
  last_reset_date : String
  deriving DecidableEq

/-- The in-memory state right after `__init__` sets the defaults, and also
the state produced by `_reset_daily_state` (lines 59-65): empty set, zero
counter, marker set to the current day. -/
def fresh_state (today : String) : ShiftBookingState :=
  ⟨∅, 0, today⟩

/-- `ShiftBookingState.is_already_booked` (lines 80-82):
`job_id in self.booked_today`. -/
def is_already_booked (s : ShiftBookingState) (job_id : String) : Bool :=
  decide (job_id ∈ s.booked_today)

/-- `ShiftBookingState.can_book_more` (lines 90-92):
`self.daily_count < daily_limit`. -/
def can_book_more (s : ShiftBookingState) (daily_limit : Int) : Bool :=
  decide (s.daily_count < daily_limit)

/-- How a persisted record is written to disk.  The source's `_save_state`
opens the target file directly; an atomic write-to-temporary-then-replace
is the alternative the specification prescribes. -/
inductive WriteMethod where
  | directWrite
  | tempThenReplace
  deriving DecidableEq

/-- A single attempted write of the ledger file: the serialized bytes and
the mechanism used to put them on disk. -/
structure SaveOp where
  content : List Char
  method : WriteMethod
  deriving DecidableEq

/-- Renders the booked set the way `json.dump` renders
`list(self.booked_today)`: a JSON array of strings.  Python's set order is
unspecified, so the model fixes the sorted order. -/
def render_booked (l : List String) : String :=
  "[" ++ String.intercalate ", " (l.map (fun s => "\"" ++ s ++ "\"")) ++ "]"

/-- The serialized form of the state produced by `json.dump(data, f)` in
`_save_state` (lines 70-76), as a character list.  The exact whitespace of
`indent=2` is immaterial to every property below; what matters is that the
record is a multi-character string written from its first character on. -/
def serialize_chars (s : ShiftBookingState) : List Char :=
  '{' ::
    (("\"booked_today\": " ++ render_booked (s.booked_today.sort (· ≤ ·)) ++
      ", \"daily_count\": " ++ toString s.daily_count ++
      ", \"last_reset_date\": \"" ++ s.last_reset_date ++ "\"").toList
      ++ [ '}' ])

/-- `ShiftBookingState._save_state` (lines 67-78): serialize the current
state and write it by opening the target file directly (`open(...,'w')`
plus `json.dump`) — a direct in-place write, not a
write-to-temporary-then-replace.  Any exception of the write is caught and
logged (`except Exception`), never re-raised. -/
def save_state (s : ShiftBookingState) : SaveOp :=
  ⟨serialize_chars s, WriteMethod.directWrite⟩

/-- `ShiftBookingState.mark_as_booked` (lines 84-88): unconditionally add
the id to `booked_today`, unconditionally increment `daily_count`, and
call `_save_state`.  Returns the updated in-memory state together with the
write operation `_save_state` attempts. -/
def mark_as_booked (s : ShiftBookingState) (job_id : String) :
    ShiftBookingState × SaveOp :=
  let s' : ShiftBookingState :=
    ⟨insert job_id s.booked_today, s.daily_count + 1, s.last_reset_date⟩
  (s', save_state s')

/-- Effect of a save operation on the on-disk file.  `write_succeeds`
says whether the underlying write raised; `_save_state` swallows the
exception either way, so a failed write simply leaves the previous disk
contents in place and the caller observes an ordinary return. -/
def apply_save (disk : List Char) (op : SaveOp) (write_succeeds : Bool) :
    List Char :=
  if write_succeeds then op.content else disk

/-- On-disk contents if the process crashes after `k` characters of the
write have reached the file.  A direct in-place write leaves a truncated
prefix of the new record; a write-to-temporary-then-replace leaves either
the old record (crash before the rename) or the new one (after). -/
def crash_contents (m : WriteMethod) (old new : List Char) (k : Nat) :
    List Char :=
  match m with
  | WriteMethod.directWrite => new.take k
  | WriteMethod.tempThenReplace => if k = 0 then old else new

/-- `data.get(key, default)` on the dictionary produced by `json.load`. -/
def jget (kvs : List (String × Json)) (key : String) (dflt : Json) : Json :=
  match kvs.find? (fun kv => kv.1 = key) with
  | some kv => kv.2
  | none => dflt

/-- `set(x)` applied to the JSON value stored under `'booked_today'`
(line 51).  An array yields the set of its members (members that are not
strings are kept by Python but can never equal a string job id, so the
model keeps exactly the string members); a string yields its characters; a
dict yields its keys; `set()` of a number, boolean or `None` raises
`TypeError`, which `_load_state` does not catch. -/
def booked_of_json : Json → Except PyErr (Finset String)
  | Json.arr xs =>
      Except.ok ((xs.filterMap (fun j =>
        match j with
        | Json.str s => some s
        | _ => none)).toFinset)
  | Json.str s => Except.ok ((s.toList.map (fun c => String.singleton c)).toFinset)
  | Json.obj kvs => Except.ok ((kvs.map Prod.fst).toFinset)
  | _ => Except.error PyErr.typeError

/-- The value stored under `'daily_count'` (line 52) as an integer.
A JSON number maps to itself and a boolean to 0/1 (Python's `bool` is an
`int`).  Python would accept any other value here and only fail at the
first arithmetic use of `daily_count`; the typed embedding surfaces that
deferred `TypeError` at load time — no claim below depends on this
corner. -/
def count_of_json : Json → Except PyErr Int
  | Json.num n => Except.ok n
  | Json.bool b => Except.ok (if b then 1 else 0)
  | _ => Except.error PyErr.typeError

/-- The possible conditions of the persisted ledger file when
`_load_state` runs: absent, unreadable (`open`/read raises `OSError`),
readable but not JSON (`json.load` raises `JSONDecodeError`), or readable
and parsed to a JSON value. -/
inductive FileState where
  | absent
  | unreadable
  | malformed
  | parsed (j : Json)

/-- `ShiftBookingState._load_state` (lines 40-57), run with the in-memory
defaults already set by `__init__`.  Only `json.JSONDecodeError` and
`KeyError` are caught (line 55) and answered by `_reset_daily_state`; an
unreadable file raises `OSError`, and content that parses to a non-object
raises `AttributeError` at `data.get` — both escape the method.
`_reset_daily_state` also persists the fresh state; the write is not
modelled here since no property below depends on it. -/
def load_state (today : String) : FileState → Except PyErr ShiftBookingState
  | FileState.absent => Except.ok (fresh_state today)
  | FileState.unreadable => Except.error PyErr.ioError
  | FileState.malformed => Except.ok (fresh_state today)
  | FileState.parsed j =>
      match j with
      | Json.obj kvs =>
          match jget kvs "last_reset_date" Json.null with
          | Json.str d =>
              if d = today then do
                let b ← booked_of_json (jget kvs "booked_today" (Json.arr []))
                let c ← count_of_json (jget kvs "daily_count" (Json.num 0))
                Except.ok ⟨b, c, today⟩
              else Except.ok (fresh_state today)
          | _ => Except.ok (fresh_state today)
      | _ => Except.error PyErr.attributeError

/-- C1 counterexample: starting from a fresh ledger, two
`mark_as_booked` calls with the same id leave `daily_count = 2` — the
pair of calls incremented it twice, not once — while `booked_today` holds
one entry, so the invariant `daily_count == |booked_today|` is broken
(and `is_booked` is nonetheless true). -/
theorem mark_as_booked_double_increment_cex :
    let s1 := (mark_as_booked (fresh_state "2026-10-12") "job-a").1
    let s2 := (mark_as_booked s1 "job-a").1
    s2.daily_count = 2 ∧ s2.booked_today.card = 1 ∧
      is_already_booked s2 "job-a" = true ∧ ¬ s2.daily_count = s2.booked_today.card := by
  decide

/-- C1 (amended): `mark_as_booked` is idempotent on the booked set but not
on the counter.  For a ledger satisfying the invariant and an id not yet
booked, one call preserves `daily_count == |booked_today|` and makes
`is_booked` true, but the second call with the same id increments
`daily_count` again: after the pair of calls the counter has grown by 2
while the set has grown by 1. -/
theorem mark_as_booked_pair (s : ShiftBookingState) (id : String)
    (hinv : s.daily_count = s.booked_today.card)
    (hnew : id ∉ s.booked_today) :
    let s1 := (mark_as_booked s id).1
    let s2 := (mark_as_booked s1 id).1
    is_already_booked s1 id = true ∧
    s1.daily_count = s1.booked_today.card ∧
    is_already_booked s2 id = true ∧
    s2.daily_count = s.daily_count + 2 ∧
    s2.booked_today.card = s.booked_today.card + 1 := by
  refine ⟨?_, ?_, ?_, ?_, ?_⟩
  · simp [mark_as_booked, is_already_booked]
  · simp [mark_as_booked, Finset.card_insert_of_not_mem hnew, hinv]
  · simp [mark_as_booked, is_already_booked]
  · simp [mark_as_booked]; ring
  · simp [mark_as_booked, Finset.insert_idem,
      Finset.card_insert_of_not_mem hnew]

/-- C1 witness: the amended statement evaluated on a fresh ledger and the
id "job-a". -/
theorem mark_as_booked_pair_witness :
    (fresh_state "2026-10-12").daily_count =
      (fresh_state "2026-10-12").booked_today.card ∧
    "job-a" ∉ (fresh_state "2026-10-12").booked_today ∧
    (let s1 := (mark_as_booked (fresh_state "2026-10-12") "job-a").1
     let s2 := (mark_as_booked s1 "job-a").1
     is_already_booked s1 "job-a" = true ∧
     s1.daily_count = s1.booked_today.card ∧
     is_already_booked s2 "job-a" = true ∧
     s2.daily_count = (fresh_state "2026-10-12").daily_count + 2 ∧
     s2.booked_today.card = (fresh_state "2026-10-12").booked_today.card + 1) :=
  ⟨by decide, by decide,
    mark_as_booked_pair (fresh_state "2026-10-12") "job-a" (by decide) (by decide)⟩

/-- C5 counterexample: two corrupt persisted files on which `_load_state`
raises instead of starting empty for the day — content that parses to a
JSON array (so `data.get` raises `AttributeError`), and an unreadable
file (`open` raises `OSError`); neither exception is in the caught tuple
`(json.JSONDecodeError, KeyError)`. -/
theorem load_state_corrupt_raises_cex :
    load_state "2026-10-12" (FileState.parsed (Json.arr [])) =
      Except.error PyErr.attributeError ∧
    load_state "2026-10-12" FileState.unreadable =
      Except.error PyErr.ioError :=
  ⟨rfl, rfl⟩

/-- C5 (amended): only a missing file or content that fails JSON parsing
is tolerated — then the ledger starts empty for the day, with an empty
booked set, `daily_count = 0` and the day marker set to the current day.
An unreadable file or well-formed JSON of unexpected shape makes the load
raise (see the counterexample). -/
theorem load_state_malformed_resets (today : String) :
    load_state today FileState.malformed = Except.ok (fresh_state today) ∧
    load_state today FileState.absent = Except.ok (fresh_state today) ∧
    (fresh_state today).booked_today = ∅ ∧
    (fresh_state today).daily_count = 0 ∧
    (fresh_state today).last_reset_date = today :=
  ⟨rfl, rfl, rfl, rfl, rfl⟩

/-- C6 counterexample: the write emitted by `mark_as_booked` is a direct
in-place write of the target file, not a write-to-temporary-then-replace;
a crash after the first character leaves a one-character truncation that
is neither the old record nor the new one. -/
theorem save_state_not_atomic_cex :
    (mark_as_booked (fresh_state "2026-10-12") "job-a").2.method =
      WriteMethod.directWrite ∧
    (mark_as_booked (fresh_state "2026-10-12") "job-a").2.method ≠
      WriteMethod.tempThenReplace := by
  exact ⟨rfl, by decide⟩

/-- C6 (amended): every `mark_as_booked` call emits exactly one save of
the updated state before returning, but by direct in-place write: there is
a crash point (after one character) at which the stored file is a partial
record, neither the previous record nor the new one — whereas a
write-to-temporary-then-replace always leaves one of the two full
records. -/
theorem mark_as_booked_save_direct (s : ShiftBookingState) (id : String) :
    (mark_as_booked s id).2 = save_state (mark_as_booked s id).1 ∧
    (mark_as_booked s id).2.method = WriteMethod.directWrite ∧
    crash_contents WriteMethod.directWrite (serialize_chars s)
        (mark_as_booked s id).2.content 1 ≠ serialize_chars s ∧
    crash_contents WriteMethod.directWrite (serialize_chars s)
        (mark_as_booked s id).2.content 1 ≠ (mark_as_booked s id).2.content ∧
    (∀ old new k, crash_contents WriteMethod.tempThenReplace old new k = old ∨
        crash_contents WriteMethod.tempThenReplace old new k = new) := by
  refine ⟨rfl, rfl, ?_, ?_, ?_⟩
  · intro h
    have := congrArg List.length h
    simp [crash_contents, mark_as_booked, save_state, serialize_chars] at this
  · intro h
    have := congrArg List.length h
    simp [crash_contents, mark_as_booked, save_state, serialize_chars] at this
  · intro old new k
    by_cases hk : k = 0 <;> simp [crash_contents, hk]

/-- C10: `mark_as_booked` never raises even when persisting fails.  The
in-memory set and counter are updated unconditionally, the save is
attempted afterwards, and a failed write is swallowed by `_save_state`'s
`except Exception` — the disk keeps its previous contents while the
caller observes an ordinary return, so the on-disk ledger lags the
in-memory one. -/
theorem mark_as_booked_swallows_save_failure (s : ShiftBookingState)
    (id : String) (disk : List Char) :
    (mark_as_booked s id).1.booked_today = insert id s.booked_today ∧
    (mark_as_booked s id).1.daily_count = s.daily_count + 1 ∧
    is_already_booked (mark_as_booked s id).1 id = true ∧
    apply_save disk (mark_as_booked s id).2 false = disk ∧
    apply_save disk (mark_as_booked s id).2 true =
      (mark_as_booked s id).2.content := by
  refine ⟨rfl, rfl, ?_, rfl, rfl⟩
  simp [mark_as_booked, is_already_booked]

/-- A discovered shift slot (`ShiftSlot`, lines 16-28). -/
structure ShiftSlot where
  job_id : String
  title : String
  location : String
  schedule : String
  card_index : Nat
  pay_rate : Option String
  discovered_at : Option String
  deriving DecidableEq

/-- The id-bearing attributes of a job card element, as read by
`_extract_slot_info` (lines 187-190): `get_attribute` returns `none`
when the attribute is absent. -/
structure Card where
  data_job_id : Option String
  data_testid : Option String
  dom_id : Option String
  deriving DecidableEq

/-- Python truthiness of a `get_attribute` result: `None` and the empty
string are falsy. -/
def py_truthy : Option String → Bool
  | none => false
  | some s => !s.isEmpty

/-- The job id computed by `_extract_slot_info` (lines 187-190):
`card.get_attribute("data-job-id") or card.get_attribute("data-testid")
or card.get_attribute("id") or f"shift_{idx}_{int(time.time())}"` —
the first truthy native attribute, else an id synthesized from the card's
position and the current epoch second `now`. -/
def extract_job_id (card : Card) (idx : Nat) (now : Nat) : String :=
  if py_truthy card.data_job_id then card.data_job_id.getD ""
  else if py_truthy card.data_testid then card.data_testid.getD ""
  else if py_truthy card.dom_id then card.dom_id.getD ""
  else "shift_" ++ toString idx ++ "_" ++ toString now

/-- `discover_available_slots` (lines 158-170), restricted to its pure
filtering step: slots whose id is already in the ledger are dropped
before selection. -/
def discover_available_slots (st : ShiftBookingState)
    (slots : List ShiftSlot) : List ShiftSlot :=
  slots.filter (fun sl => !is_already_booked st sl.job_id)

/-- C9 counterexample: a job card exposing no native id attribute gets a
synthesized id that depends on the current time, not on page content
alone — the same card at epoch seconds 100 and 101 yields different ids,
so same-day ledger deduplication does not apply to it across passes. -/
theorem extract_job_id_time_dependent_cex :
    extract_job_id ⟨none, none, none⟩ 0 100 ≠
      extract_job_id ⟨none, none, none⟩ 0 101 := by
  decide

/-- C9 (amended): the discovered id is stable only for cards exposing a
truthy native id attribute — then it is a function of the card alone and
two passes agree; for cards with no native id the synthesized id also
depends on the discovery time. -/
theorem extract_job_id_stable_with_native_id (card : Card) (idx : Nat)
    (h : py_truthy card.data_job_id = true ∨
      py_truthy card.data_testid = true ∨ py_truthy card.dom_id = true) :
    ∀ now now', extract_job_id card idx now = extract_job_id card idx now' := by
  intro now now'
  unfold extract_job_id
  rcases h with h | h | h
  · simp [h]
  · cases hb : py_truthy card.data_job_id <;> simp [h, hb]
  · cases hb : py_truthy card.data_job_id <;>
      cases hc : py_truthy card.data_testid <;> simp [h, hb, hc]

/-- C9 witness: a card with a native `data-job-id` yields the same id at
two different discovery times. -/
theorem extract_job_id_stable_witness :
    py_truthy (Card.mk (some "JOB-123") none none).data_job_id = true ∧
    extract_job_id ⟨some "JOB-123", none, none⟩ 0 100 =
      extract_job_id ⟨some "JOB-123", none, none⟩ 0 101 :=
  ⟨by decide,
    extract_job_id_stable_with_native_id ⟨some "JOB-123", none, none⟩ 0
      (Or.inl (by decide)) 100 101⟩

/-- Abstraction of the driver interactions of `ShiftBooking.book_slot`
(lines 216-421).  Each field is the outcome of one source block:
`cards_found` — how many job cards the first matching selector returns
(lines 240-253, zero means none found by any selector);
`card_click_ok` — whether any of the four card click methods succeeds
(lines 263-284); `apply_click_ok` — whether the apply-button loop
(3 attempts over the selector list, lines 350-395) eventually clicks a
displayed and enabled button; `success_indicator` — whether the page
shows a terminal success indicator of the kind
`_check_booking_completion` looks for.  `book_slot` never reads
`success_indicator`: its dropdown handling (lines 300-313) and its
Next/Submit loop (lines 399-412) are best-effort and cannot fail the
flow. -/
structure BookSlotEnv where
  cards_found : Nat
  card_click_ok : Bool
  apply_click_ok : Bool
  success_indicator : Bool

/-- `ShiftBooking.book_slot` (lines 216-421): returns `false` when no
cards are found, the card index is out of range, every card click method
fails, or no apply button is ever clicked; otherwise it runs the
best-effort dropdown and Next/Submit steps, calls
`self.state.mark_as_booked(slot.job_id)` (line 415) and returns `true`
(line 417) — without consulting any success indicator.  The updated
ledger is returned alongside the outcome. -/
def book_slot (env : BookSlotEnv) (slot : ShiftSlot)
    (st : ShiftBookingState) : Bool × ShiftBookingState :=
  if env.cards_found = 0 then (false, st)
  else if env.cards_found ≤ slot.card_index then (false, st)
  else if !env.card_click_ok then (false, st)
  else if !env.apply_click_ok then (false, st)
  else (true, (mark_as_booked st slot.job_id).1)

/-- C2 (amended): on the `ShiftBooking.book_slot` path the guarantee
holds — whenever `book_slot` returns `true`, the candidate's id is in the
ledger at that moment, and a subsequent discovery pass over any card list
filters every slot bearing that id.  (The bulletproof path does not have
this property; see the counterexample.) -/
theorem book_slot_records_before_success (env : BookSlotEnv)
    (slot : ShiftSlot) (st : ShiftBookingState) (slots : List ShiftSlot)
    (h : (book_slot env slot st).1 = true) :
    is_already_booked (book_slot env slot st).2 slot.job_id = true ∧
    (discover_available_slots (book_slot env slot st).2 slots).all
      (fun sl => sl.job_id != slot.job_id) = true := by
  by_cases h0 : env.cards_found = 0
  · simp [book_slot, h0] at h
  · by_cases h1 : env.cards_found ≤ slot.card_index
    · simp [book_slot, h0, h1] at h
    · by_cases h2 : env.card_click_ok
      · by_cases h3 : env.apply_click_ok
        · constructor
          · simp [book_slot, h0, h1, h2, h3, is_already_booked, mark_as_booked]
          · simp only [book_slot, h0, h1, h2, h3, if_false, if_true,
              Bool.not_true, Bool.false_eq_true, discover_available_slots,
              List.all_eq_true, List.mem_filter]
            intro sl hsl
            have hnb := hsl.2
            simp [is_already_booked, mark_as_booked, Finset.mem_insert] at hnb
            simp [hnb.1]
        · simp [book_slot, h0, h1, h2, h3] at h
      · simp [book_slot, h0, h1, h2] at h

/-- C2 witness: the amended statement evaluated on an all-success
environment, a concrete slot and a fresh ledger. -/
theorem book_slot_records_before_success_witness :
    (book_slot ⟨1, true, true, true⟩ ⟨"job-a", "t", "l", "s", 0, none, none⟩
        (fresh_state "2026-10-12")).1 = true ∧
    (is_already_booked
        (book_slot ⟨1, true, true, true⟩ ⟨"job-a", "t", "l", "s", 0, none, none⟩
          (fresh_state "2026-10-12")).2 "job-a" = true ∧
      (discover_available_slots
          (book_slot ⟨1, true, true, true⟩ ⟨"job-a", "t", "l", "s", 0, none, none⟩
            (fresh_state "2026-10-12")).2
          [⟨"job-a", "t", "l", "s", 0, none, none⟩]).all
        (fun sl => sl.job_id != "job-a") = true) :=
  ⟨by decide,
    book_slot_records_before_success ⟨1, true, true, true⟩
      ⟨"job-a", "t", "l", "s", 0, none, none⟩ (fresh_state "2026-10-12")
      [⟨"job-a", "t", "l", "s", 0, none, none⟩] (by decide)⟩

/-- C3 counterexample: `book_slot` declares `Booked` and writes the
ledger with no confirmed success indicator — in an environment whose page
never shows one (`success_indicator = false`), the flow still returns
`true` and records the id. -/
theorem book_slot_booked_without_indicator_cex :
    (book_slot ⟨1, true, true, false⟩ ⟨"job-a", "t", "l", "s", 0, none, none⟩
        (fresh_state "2026-10-12")).1 = true ∧
    (BookSlotEnv.mk 1 true true false).success_indicator = false ∧
    is_already_booked
      (book_slot ⟨1, true, true, false⟩ ⟨"job-a", "t", "l", "s", 0, none, none⟩
        (fresh_state "2026-10-12")).2 "job-a" = true := by
  refine ⟨by decide, rfl, by decide⟩

/-- The page as seen by
`BulletproofBookingService._complete_application_flow_bulletproof`
(`src/services/bulletproof_booking.py`, lines 290-365): `complete p`
is the result of `_check_booking_completion` on the page reached after
`p` flow-button activations, and `button_found p` says whether a
displayed, enabled flow button (Next / Continue / Submit / ...) can be
clicked there. -/
structure FlowEnv where
  complete : Nat → Bool
  button_found : Nat → Bool

/-- The loop body of `_complete_application_flow_bulletproof`: up to the
iteration budget, check for completion; otherwise click a flow button
(advancing the page) or, when no button is clickable, re-check and retry;
when the budget is exhausted, one final completion check decides the
result (line 365). -/
def complete_flow_aux (env : FlowEnv) (page : Nat) : Nat → Bool
  | 0 => env.complete page
  | n + 1 =>
      if env.complete page then true
      else if env.button_found page then complete_flow_aux env (page + 1) n
      else if env.complete page then true
      else complete_flow_aux env page n

/-- `_complete_application_flow_bulletproof` (lines 290-365) with its
iteration budget `max_flow_attempts = 5`, starting from the page reached
after the apply click. -/
def complete_application_flow_bulletproof (env : FlowEnv) : Bool :=
  complete_flow_aux env 0 5

/-- C3 (amended): the bulletproof COMPLETE_FLOW step reports success for
a candidate only if a success indicator was actually observed — if no
reachable page ever satisfies the completion check, the bounded iteration
budget ends in failure for that candidate.  (The fast-mode `book_slot`
path lacks this property; see the counterexample.) -/
theorem complete_flow_requires_indicator (env : FlowEnv)
    (h : ∀ p, env.complete p = false) :
    complete_application_flow_bulletproof env = false := by
  have haux : ∀ fuel page, complete_flow_aux env page fuel = false := by
    intro fuel
    induction fuel with
    | zero => intro page; simp [complete_flow_aux, h]
    | succ n ih =>
        intro page
        simp only [complete_flow_aux, h, if_false, Bool.false_eq_true]
        split
        · exact ih (page + 1)
        · exact ih page
  exact haux 5 0

/-- C3 witness: a page with clickable flow buttons everywhere but no
success indicator anywhere makes the bulletproof flow fail. -/
theorem complete_flow_requires_indicator_witness :
    complete_application_flow_bulletproof ⟨fun _ => false, fun _ => true⟩ =
      false :=
  complete_flow_requires_indicator ⟨fun _ => false, fun _ => true⟩
    (fun _ => rfl)

/-- Abstraction of the driver interactions of
`BulletproofBookingService.attempt_bulletproof_booking` (lines 19-112),
indexed by the retry attempt: `card_ok a` — whether the job-card click
(lines 114-173) succeeds on attempt `a`; `apply_ok a` — whether the
apply-button click (lines 251-288) succeeds; `flow a` — the page
behaviour seen by the application-flow step.  Modal handling
(lines 206-249) is best-effort and cannot fail an attempt; notifications
and the success/failure counters do not affect the outcome and are
omitted. -/
structure BBEnv where
  card_ok : Nat → Bool
  apply_ok : Nat → Bool
  flow : Nat → FlowEnv

/-- The retry loop of `attempt_bulletproof_booking`: on each of the
`max_booking_retries = 5` attempts, card click, apply click and
application flow must all succeed; any failure moves on to the next
attempt, and exhausting the budget returns `false` (line 112). -/
def attempt_bb_aux (env : BBEnv) (attempt : Nat) : Nat → Bool
  | 0 => false
  | n + 1 =>
      if !env.card_ok attempt then attempt_bb_aux env (attempt + 1) n
      else if !env.apply_ok attempt then attempt_bb_aux env (attempt + 1) n
      else if !complete_application_flow_bulletproof (env.flow attempt) then
        attempt_bb_aux env (attempt + 1) n
      else true

/-- `BulletproofBookingService.attempt_bulletproof_booking`
(lines 19-112).  Note: on success (lines 68-92) the service increments
its own counter and sends a notification, but performs no ledger write of
any kind — neither this service nor `BulletproofMonitor` constructs,
reads or updates a `ShiftBookingState`. -/
def attempt_bulletproof_booking (env : BBEnv) : Bool :=
  attempt_bb_aux env 0 5

/-- The booking ledger after one bulletproof booking attempt: unchanged,
whatever the outcome, because no code on the bulletproof path references
`ShiftBookingState` (`bulletproof_booking.py` and
`bulletproof_monitor.py` contain no ledger call). -/
def bulletproof_ledger_after (st : ShiftBookingState) (_env : BBEnv) :
    ShiftBookingState :=
  st

/-- C2 counterexample: a bulletproof booking declared successful leaves
the ledger untouched — the booked id is not recorded at the moment
success is declared, so `is_booked` stays false and the id remains
eligible for another attempt within the same day. -/
theorem bulletproof_success_not_recorded_cex :
    attempt_bulletproof_booking
      ⟨fun _ => true, fun _ => true, fun _ => ⟨fun _ => true, fun _ => true⟩⟩ =
      true ∧
    bulletproof_ledger_after (fresh_state "2026-10-12")
      ⟨fun _ => true, fun _ => true, fun _ => ⟨fun _ => true, fun _ => true⟩⟩ =
      fresh_state "2026-10-12" ∧
    is_already_booked
      (bulletproof_ledger_after (fresh_state "2026-10-12")
        ⟨fun _ => true, fun _ => true, fun _ => ⟨fun _ => true, fun _ => true⟩⟩)
      "job-a" = false := by
  refine ⟨rfl, rfl, by decide⟩

/-- What a click attempt on a resolved element does
(`src/utils/selenium_helpers.py`, lines 31-44): it may succeed, raise
`ElementClickInterceptedException` or `StaleElementReferenceException`
(both answered by the JavaScript-click fallback), or raise anything
else (absorbed by the broad handler). -/
inductive ClickRes where
  | ok
  | intercepted
  | stale
  | otherErr

/-- One `driver.find_element(selector)` outcome: an exception, or an
element with its visibility and enabled state, the result its `click()`
would have, and whether the JavaScript fallback click would succeed. -/
inductive FindR where
  | raises (e : PyErr)
  | elem (displayed enabled : Bool) (click : ClickRes) (js_ok : Bool)

/-- The driver as seen by `click_with_retry`: the `find_element` outcome
for each (retry pass, selector index) pair. -/
def DriverBehavior : Type := Nat → Nat → FindR

/-- Whether a find outcome resolved to a currently visible, enabled
control (the condition on line 31 of `selenium_helpers.py`). -/
def resolves : FindR → Bool
  | FindR.raises _ => false
  | FindR.elem d e _ _ => d && e

/-- The per-selector body of `click_with_retry` (lines 27-47): find the
element; if visible and enabled, click it, falling back to a JavaScript
click when the click is intercepted or the element went stale; every
raised exception is caught and reduces to moving on to the next
selector. -/
def try_selector : FindR → Bool
  | FindR.raises _ => false
  | FindR.elem d e ck js =>
      if d && e then
        match ck with
        | ClickRes.ok => true
        | ClickRes.intercepted => js
        | ClickRes.stale => js
        | ClickRes.otherErr => false
      else false

/-- One retry pass: the selectors tried in list order until one click
succeeds. -/
def pass_over (drv : DriverBehavior) (pass : Nat) : List Nat → Bool
  | [] => false
  | i :: rest =>
      if try_selector (drv pass i) then true else pass_over drv pass rest

/-- The retry loop of `click_with_retry` (lines 26-54), counting the
passes performed; the backoff sleeps between passes do not affect the
result.  Totality of this function is the image of the source's exception
handling: every handler reduces a raise to `continue`, so no driver error
escapes. -/
def click_retry_aux (drv : DriverBehavior) (sels : List Nat) :
    Nat → Nat → Bool × Nat
  | 0, p => (false, p)
  | n + 1, p =>
      if pass_over drv p sels then (true, p + 1)
      else click_retry_aux drv sels n (p + 1)

/-- `click_with_retry` (`src/utils/selenium_helpers.py`, lines 17-54):
returns whether some selector was successfully clicked, paired with the
number of resolution passes performed.  `max_retries` defaults to 3 in
the source. -/
def click_with_retry (drv : DriverBehavior) (sels : List Nat)
    (max_retries : Nat) : Bool × Nat :=
  click_retry_aux drv sels max_retries 0

/-- Helper: a selector whose find outcome does not resolve to a visible,
enabled control produces no click. -/
theorem try_selector_of_not_resolves (r : FindR) (h : resolves r = false) :
    try_selector r = false := by
  cases r with
  | raises e => rfl
  | elem d e ck js =>
      simp only [resolves] at h
      simp [try_selector, h]

/-- C7: with an attempt budget of 3 and a target that never resolves to a
visible, enabled control — whatever mix of exceptions and non-interactable
elements the driver produces — `click_with_retry` performs exactly 3
resolution passes, each iterating the whole selector list in order, then
returns `false`; no driver error escapes (the embedding is a total
function precisely because every source path catches). -/
theorem click_with_retry_retry_bound (drv : DriverBehavior)
    (sels : List Nat) (h : ∀ p i, i ∈ sels → resolves (drv p i) = false) :
    click_with_retry drv sels 3 = (false, 3) := by
  have hpass : ∀ p, pass_over drv p sels = false := by
    intro p
    induction sels with
    | nil => rfl
    | cons i rest ih =>
        have hi : resolves (drv p i) = false := h p i (by simp)
        simp only [pass_over, try_selector_of_not_resolves _ hi,
          Bool.false_eq_true, if_false]
        exact ih (fun q j hj => h q j (by simp [hj]))
  simp [click_with_retry, click_retry_aux, hpass]

/-- C7 witness: a driver that always raises on `find_element`, two
selectors, budget 3. -/
theorem click_with_retry_retry_bound_witness :
    click_with_retry (fun _ _ => FindR.raises PyErr.ioError) [0, 1] 3 =
      (false, 3) :=
  click_with_retry_retry_bound (fun _ _ => FindR.raises PyErr.ioError)
    [0, 1] (fun _ _ _ => rfl)

/-- The configuration values `BulletproofMonitor._process_jobs_bulletproof`
reads (`src/bulletproof_monitor.py`, lines 261 and 271):
`config.booking.daily_limit` and `config.booking.per_cycle_limit`
(defaults 5 and 1 in `src/config/models.py`). -/
structure MonitorConfig where
  daily_limit : Nat
  per_cycle_limit : Nat
  deriving DecidableEq

/-- The outcome `attempt_bulletproof_booking` would have for one job of a
cycle.  An exception escaping the per-job `try` is caught on lines
291-293 and behaves like a failed booking (no increment, continue), so
both collapse to `book_succeeds = false`. -/
structure JobSpec where
  book_succeeds : Bool
  deriving DecidableEq

/-- The behaviour of one iteration of the monitoring loop:
`raisesOutside` — an exception escapes into the handler on lines 150-162
(everything inside `_run_bulletproof_cycle` is caught there, so this
models a raise from the summary/wait code); `inner sv jobs` — the cycle
body runs, with session validation outcome `sv` and per-job outcomes
`jobs` (a failed browser start is also caught inside
`_run_bulletproof_cycle` and behaves like `sv = false`). -/
inductive CycleSpec where
  | raisesOutside
  | inner (session_valid : Bool) (jobs : List JobSpec)

/-- The scheduler state of `BulletproofMonitor`: `running`,
`cycle_count`, `total_bookings`, the loop-local `consecutive_failures`
(lines 114), plus observables of the recovery path — how many times
recovery was entered, the seconds slept in recovery (120 per entry, line
363) and in the progressive error delay (lines 160-162), and whether the
cached `main_monitor` component is initialized (discarded on line 366,
re-initialized next cycle on lines 181-183). -/
structure MonitorState where
  running : Bool
  cycle_count : Nat
  total_bookings : Nat
  consecutive_failures : Nat
  recoveries : Nat
  recovery_delay : Nat
  error_delay : Nat
  main_monitor_cached : Bool
  deriving DecidableEq

/-- The state on entry to `_run_monitoring_loop`:
`start_bulletproof_monitoring` has set `running = True` (line 51) and the
counters are at their `__init__` values. -/
def initial_monitor_state : MonitorState :=
  ⟨true, 0, 0, 0, 0, 0, 0, false⟩

/-- The per-job loop of `_process_jobs_bulletproof` (lines 253-295) over
the first 10 jobs, given the stale `self.total_bookings` read at cycle
start (the field is only updated after the cycle, line 190): before each
booking attempt, break when the per-cycle limit is hit, and set
`running = False` and break when `total_bookings` has already reached the
daily limit.  Returns the bookings made and the resulting running flag. -/
def process_jobs_aux (cfg : MonitorConfig) (total : Nat) :
    List JobSpec → Nat → Nat × Bool
  | [], made => (made, true)
  | j :: rest, made =>
      if cfg.per_cycle_limit ≤ made then (made, true)
      else if cfg.daily_limit ≤ total then (made, false)
      else process_jobs_aux cfg total rest
        (if j.book_succeeds then made + 1 else made)

/-- `_process_jobs_bulletproof` (lines 253-295): an empty job list books
nothing; otherwise the per-job loop runs over `jobs[:10]`. -/
def process_jobs_bulletproof (cfg : MonitorConfig) (total : Nat)
    (jobs : List JobSpec) : Nat × Bool :=
  process_jobs_aux cfg total (jobs.take 10) 0

/-- `_run_bulletproof_cycle` (lines 164-198): a failed session validation
returns `False`; otherwise the cached main monitor is (re-)initialized if
absent, jobs are searched and processed, `total_bookings` is increased by
the bookings made, and the cycle reports `True` — even when it booked
nothing. -/
def run_bulletproof_cycle (cfg : MonitorConfig) (st : MonitorState)
    (session_valid : Bool) (jobs : List JobSpec) : Bool × MonitorState :=
  if session_valid = false then (false, st)
  else
    let st1 := { st with main_monitor_cached := true }
    let r := process_jobs_bulletproof cfg st1.total_bookings jobs
    (true, { st1 with total_bookings := st1.total_bookings + r.1,
                      running := st1.running && r.2 })

/-- `_enter_recovery_mode` (lines 340-373): sleep 120 seconds and discard
the cached components so they are rebuilt next cycle.  The caller resets
`consecutive_failures` separately (lines 137 and 157). -/
def enter_recovery_mode (st : MonitorState) : MonitorState :=
  { st with recoveries := st.recoveries + 1,
            recovery_delay := st.recovery_delay + 120,
            main_monitor_cached := false }

/-- One iteration of `_run_monitoring_loop` (lines 112-162) with its
hardcoded `max_failures = 10`: nothing happens when `running` is already
false (the `while` guard); otherwise the cycle count is incremented, the
cycle runs (or raises into the outer handler), `consecutive_failures` is
reset on success and incremented on failure, and on reaching 10 the loop
enters recovery once and resets the counter to 0. -/
def monitor_step (cfg : MonitorConfig) (st : MonitorState)
    (c : CycleSpec) : MonitorState :=
  if st.running = false then st
  else
    let st0 : MonitorState := { st with cycle_count := st.cycle_count + 1 }
    match c with
    | CycleSpec.raisesOutside =>
        let st1 : MonitorState := { st0 with
          consecutive_failures := st0.consecutive_failures + 1 }
        if 10 ≤ st1.consecutive_failures then
          { enter_recovery_mode st1 with consecutive_failures := 0 }
        else
          { st1 with error_delay :=
              st1.error_delay + min (st1.consecutive_failures * 10) 60 }
    | CycleSpec.inner sv jobs =>
        let r : Bool × MonitorState := run_bulletproof_cycle cfg st0 sv jobs
        let st1 : MonitorState :=
          if r.1 then { r.2 with consecutive_failures := 0 }
          else { r.2 with
            consecutive_failures := r.2.consecutive_failures + 1 }
        if 10 ≤ st1.consecutive_failures then
          { enter_recovery_mode st1 with consecutive_failures := 0 }
        else st1

/-- `_run_monitoring_loop` driven by a finite script of cycle
behaviours; the `while self.running` guard is the `running` check inside
`monitor_step`. -/
def run_monitoring_loop (cfg : MonitorConfig) :
    MonitorState → List CycleSpec → MonitorState
  | st, [] => st
  | st, c :: rest => run_monitoring_loop cfg (monitor_step cfg st c) rest

/-- Once `running` is false the loop issues no further cycles. -/
theorem run_monitoring_loop_stopped (cfg : MonitorConfig)
    (st : MonitorState) (l : List CycleSpec) (h : st.running = false) :
    run_monitoring_loop cfg st l = st := by
  induction l with
  | nil => rfl
  | cons c rest ih =>
      simp only [run_monitoring_loop, monitor_step, h, if_true]
      exact ih

/-- A scheduler configured with a daily limit of 2 (per-cycle limit at
its default 1). -/
def cfg_daily2 : MonitorConfig := ⟨2, 1⟩

/-- A cycle whose discovery finds one job and whose booking attempt on it
succeeds. -/
def one_booking_cycle : CycleSpec := CycleSpec.inner true [⟨true⟩]

/-- C4 counterexample: with `daily_limit = 2` and cycles each yielding
one `Booked`, the scheduler is still running after the second cycle —
the limit check reads the stale pre-cycle total — and it issues a third
cycle (`cycle_count = 3`), contradicting "transitions to STOPPED after
the cycle in which total bookings reach the limit and issues no further
cycles". -/
theorem daily_limit_extra_cycle_cex :
    (run_monitoring_loop cfg_daily2 initial_monitor_state
        [one_booking_cycle, one_booking_cycle]).running = true ∧
    (run_monitoring_loop cfg_daily2 initial_monitor_state
        [one_booking_cycle, one_booking_cycle]).total_bookings = 2 ∧
    (run_monitoring_loop cfg_daily2 initial_monitor_state
        [one_booking_cycle, one_booking_cycle, one_booking_cycle]).cycle_count
      = 3 := by
  decide

/-- C4 (amended): with `daily_limit = 2` and cycles each yielding one
`Booked`, the scheduler books in cycles 1 and 2, then stops at the start
of job processing in cycle 3 — exactly one cycle beyond the
limit-reaching one — booking nothing there; total bookings equal the
limit and no fourth cycle is ever issued, whatever follows in the
script. -/
theorem daily_limit_stops_one_cycle_late (rest : List CycleSpec) :
    run_monitoring_loop cfg_daily2 initial_monitor_state
        (one_booking_cycle :: one_booking_cycle :: one_booking_cycle :: rest)
      = { running := false, cycle_count := 3, total_bookings := 2,
          consecutive_failures := 0, recoveries := 0, recovery_delay := 0,
          error_delay := 0, main_monitor_cached := true } := by
  show run_monitoring_loop cfg_daily2
      (monitor_step cfg_daily2
        (monitor_step cfg_daily2
          (monitor_step cfg_daily2 initial_monitor_state one_booking_cycle)
          one_booking_cycle)
        one_booking_cycle) rest = _
  have h3 : monitor_step cfg_daily2
      (monitor_step cfg_daily2
        (monitor_step cfg_daily2 initial_monitor_state one_booking_cycle)
        one_booking_cycle)
      one_booking_cycle
      = { running := false, cycle_count := 3, total_bookings := 2,
          consecutive_failures := 0, recoveries := 0, recovery_delay := 0,
          error_delay := 0, main_monitor_cached := true } := by decide
  rw [h3]
  exact run_monitoring_loop_stopped _ _ _ rfl

/-- A cycle that fails (session validation unsuccessful, no jobs
processed). -/
def failing_cycle : CycleSpec := CycleSpec.inner false []

/-- C8: from any running scheduler state with no accumulated failures,
ten consecutive failing cycles enter recovery mode exactly once — adding
one recovery with its 120-second delay and discarding the cached
per-driver component state so it is re-initialized next cycle — after
which `consecutive_failures` is 0 and the loop is still running; no
booking totals change. -/
theorem recovery_after_ten_failures (cfg : MonitorConfig)
    (st : MonitorState) (hrun : st.running = true)
    (hcf : st.consecutive_failures = 0) :
    (run_monitoring_loop cfg st (List.replicate 10 failing_cycle)).recoveries
        = st.recoveries + 1 ∧
    (run_monitoring_loop cfg st
        (List.replicate 10 failing_cycle)).consecutive_failures = 0 ∧
    (run_monitoring_loop cfg st (List.replicate 10 failing_cycle)).running
        = true ∧
    (run_monitoring_loop cfg st
        (List.replicate 10 failing_cycle)).main_monitor_cached = false ∧
    (run_monitoring_loop cfg st (List.replicate 10 failing_cycle)).recovery_delay
        = st.recovery_delay + 120 ∧
    (run_monitoring_loop cfg st
        (List.replicate 10 failing_cycle)).total_bookings = st.total_bookings ∧
    (run_monitoring_loop cfg st (List.replicate 10 failing_cycle)).cycle_count
        = st.cycle_count + 10 := by
  obtain ⟨r, cc, tb, cf, rec, rd, ed, mmc⟩ := st
  simp only at hrun hcf
  subst hrun hcf
  refine ⟨?_, ?_, ?_, ?_, ?_, ?_, ?_⟩ <;>
    simp [run_monitoring_loop, monitor_step, run_bulletproof_cycle,
      enter_recovery_mode, failing_cycle, List.replicate]

/-- C8 witness: the statement evaluated from the loop-entry state. -/
theorem recovery_after_ten_failures_witness :
    (run_monitoring_loop cfg_daily2 initial_monitor_state
        (List.replicate 10 failing_cycle)).recoveries = 1 ∧
    (run_monitoring_loop cfg_daily2 initial_monitor_state
        (List.replicate 10 failing_cycle)).consecutive_failures = 0 ∧
    (run_monitoring_loop cfg_daily2 initial_monitor_state
        (List.replicate 10 failing_cycle)).running = true ∧
    (run_monitoring_loop cfg_daily2 initial_monitor_state
        (List.replicate 10 failing_cycle)).main_monitor_cached = false ∧
    (run_monitoring_loop cfg_daily2 initial_monitor_state
        (List.replicate 10 failing_cycle)).recovery_delay = 120 ∧
    (run_monitoring_loop cfg_daily2 initial_monitor_state
        (List.replicate 10 failing_cycle)).total_bookings = 0 ∧
    (run_monitoring_loop cfg_daily2 initial_monitor_state
        (List.replicate 10 failing_cycle)).cycle_count = 10 :=
  recovery_after_ten_failures cfg_daily2 initial_monitor_state rfl rfl
